import Mathlib

/-!
Verification of the Udupi POS order/billing logic.

The TypeScript source (src/hooks/usePOSData.ts, services/billNumberService.ts,
services/supabase.ts, types/index.ts) is shallowly embedded below.  JavaScript
numbers are modelled as exact rationals (ℚ); all the order amounts involved in
the claims are small decimal values on which JavaScript float arithmetic is
exact, so the embedding is faithful on every input used in a counterexample.
React state (useState setters plus the one `useEffect` that derives table
status from the current order) is modelled by explicit state passing: each
handler is a pure function from the captured state to the committed state,
and the `[currentOrder]` effect is applied after any handler that replaces
the current order.
-/

namespace UdupiPOS

/-- JavaScript Math.round: round half toward positive infinity. -/
def jsRound (q : ℚ) : ℤ :=
  (q + 1/2).num.fdiv ((q + 1/2).den : ℤ)

/-- types/index.ts MenuItem. -/
structure MenuItem where
  id : String
  name : String
  price : ℚ
  category : String
  description : Option String
  available : Bool
deriving DecidableEq

/-- types/index.ts OrderItem extends MenuItem with quantity/isParcel/parcelCharge.
The `parcelCharge` field is non-optional in the current type declaration, so the
backward-compatibility fallback `item.parcelCharge ?? (item.isParcel ? 5 : 0)`
in the source always takes the stored `parcelCharge`. -/
structure OrderItem where
  id : String
  name : String
  price : ℚ
  category : String
  description : Option String
  available : Bool
  quantity : ℕ
  isParcel : Bool
  parcelCharge : ℚ
deriving DecidableEq

inductive OrderStatus where
  | active
  | completed
  | cancelled
deriving DecidableEq

/-- types/index.ts Order.  `timestamp : ℕ` stands for the Date value in
milliseconds; `billNumber = none` models the absent optional field. -/
structure Order where
  id : String
  tableNumber : ℕ
  items : List OrderItem
  serviceCharge : ℚ
  parcelCharges : ℚ
  subtotal : ℚ
  total : ℚ
  timestamp : ℕ
  status : OrderStatus
  kotPrinted : Bool
  customerBillPrinted : Bool
  billNumber : Option String
deriving DecidableEq

inductive TableStatus where
  | available
  | occupied
  | reserved
deriving DecidableEq

/-- types/index.ts Table (lastActivity, an uninspected wall-clock value, is
omitted). -/
structure Table where
  number : ℕ
  status : TableStatus
  currentOrder : Option Order
deriving DecidableEq

/-- The slice of the usePOSData hook state the verified handlers touch. -/
structure POSState where
  tables : List Table
  menuItems : List MenuItem
  orders : List Order
  currentOrder : Option Order
  errorMessage : Option String
  successMessage : Option String
deriving DecidableEq

/-- usePOSData.ts calculateOrderTotals (lines 245-257).  The service-charge
amount `subtotal * serviceChargePercent / 100` is added unrounded. -/
def calculateOrderTotals (items : List OrderItem) (serviceChargePercent : ℚ) :
    ℚ × ℚ × ℚ :=
  let subtotal := items.foldl (fun sum item => sum + item.price * (item.quantity : ℚ)) 0
  let parcelCharges := items.foldl
    (fun sum item => sum + (if item.isParcel then item.parcelCharge else 0)) 0
  let serviceChargeAmount := subtotal * serviceChargePercent / 100
  (subtotal, parcelCharges, subtotal + parcelCharges + serviceChargeAmount)

/-- The local variable `serviceChargeAmount` of calculateOrderTotals (line 253),
also recomputed for the customer bill in generatePrintContent (line 712). -/
def serviceChargeAmount (items : List OrderItem) (serviceChargePercent : ℚ) : ℚ :=
  (calculateOrderTotals items serviceChargePercent).1 * serviceChargePercent / 100

/-- usePOSData.ts addItemToOrder (lines 259-292), acting on the current order. -/
def addItemToOrder (o : Order) (menuItem : MenuItem) : Order :=
  let updatedItems :=
    if o.items.any (fun item => item.id == menuItem.id) then
      o.items.map (fun item =>
        if item.id == menuItem.id then { item with quantity := item.quantity + 1 } else item)
    else
      o.items ++ [{ id := menuItem.id, name := menuItem.name, price := menuItem.price,
                    category := menuItem.category, description := menuItem.description,
                    available := menuItem.available,
                    quantity := 1, isParcel := false, parcelCharge := 0 }]
  let t := calculateOrderTotals updatedItems o.serviceCharge
  { o with items := updatedItems, subtotal := t.1, parcelCharges := t.2.1, total := t.2.2 }

/-- usePOSData.ts updateItemQuantity (lines 294-322), the part that rebuilds the
current order (the accompanying orders-list and table effects are in
`updateItemQuantity` below). -/
def updateItemQuantityOrder (o : Order) (itemId : String) (quantity : ℕ) : Order :=
  let updatedItems :=
    if quantity == 0 then o.items.filter (fun item => item.id != itemId)
    else o.items.map (fun item => if item.id == itemId then { item with quantity := quantity } else item)
  let t := calculateOrderTotals updatedItems o.serviceCharge
  { o with items := updatedItems, subtotal := t.1, parcelCharges := t.2.1, total := t.2.2 }

/-- usePOSData.ts toggleItemParcel (lines 324-343).  Note: it rebuilds only the
item list; subtotal, parcelCharges and total are spread through unchanged. -/
def toggleItemParcel (o : Order) (itemId : String) : Order :=
  { o with items := o.items.map (fun item =>
      if item.id == itemId then
        { item with isParcel := !item.isParcel,
                    parcelCharge := if !item.isParcel then 5 else 0 }
      else item) }

/-- usePOSData.ts updateItemParcelCharge (lines 349-367), acting on the current order. -/
def updateItemParcelCharge (o : Order) (itemId : String) (parcelCharge : ℚ) : Order :=
  let updatedItems := o.items.map (fun item =>
    if item.id == itemId then { item with parcelCharge := parcelCharge } else item)
  let t := calculateOrderTotals updatedItems o.serviceCharge
  { o with items := updatedItems, subtotal := t.1, parcelCharges := t.2.1, total := t.2.2 }

/-- usePOSData.ts updateServiceCharge (lines 369-381), acting on the current order. -/
def updateServiceCharge (o : Order) (serviceCharge : ℚ) : Order :=
  let t := calculateOrderTotals o.items serviceCharge
  { o with serviceCharge := serviceCharge, subtotal := t.1, parcelCharges := t.2.1, total := t.2.2 }

/-- Specification-level subtotal: sum of price times quantity over all items. -/
def sumSubtotal (items : List OrderItem) : ℚ :=
  (items.map (fun item => item.price * (item.quantity : ℚ))).sum

/-- Specification-level parcel charges: sum of parcelCharge over exactly the
items with isParcel set. -/
def sumParcel (items : List OrderItem) : ℚ :=
  ((items.filter (fun item => item.isParcel)).map (fun item => item.parcelCharge)).sum

/-- An order stores totals consistent with its items: the three stored fields
equal the spec-level sums, with the service-charge amount added exactly
(unrounded). -/
def storedTotalsMatch (o : Order) : Prop :=
  o.subtotal = sumSubtotal o.items ∧
  o.parcelCharges = sumParcel o.items ∧
  o.total = sumSubtotal o.items + sumParcel o.items +
    sumSubtotal o.items * o.serviceCharge / 100

lemma foldl_add_eq (f : OrderItem → ℚ) :
    ∀ (l : List OrderItem) (a : ℚ), l.foldl (fun s x => s + f x) a = a + (l.map f).sum
  | [], a => by simp
  | x :: l, a => by
    rw [List.foldl_cons, foldl_add_eq f l (a + f x)]
    simp [add_assoc]

lemma sum_if_parcel : ∀ l : List OrderItem,
    (l.map (fun item => if item.isParcel then item.parcelCharge else 0)).sum = sumParcel l
  | [] => by simp [sumParcel]
  | x :: l => by
    have ih := sum_if_parcel l
    by_cases hx : x.isParcel <;>
      simp [sumParcel, List.filter_cons, hx, List.sum_cons, ih, sumParcel] at *

lemma calculateOrderTotals_fst (items : List OrderItem) (sc : ℚ) :
    (calculateOrderTotals items sc).1 = sumSubtotal items := by
  simp [calculateOrderTotals, sumSubtotal, foldl_add_eq]

lemma calculateOrderTotals_parcel (items : List OrderItem) (sc : ℚ) :
    (calculateOrderTotals items sc).2.1 = sumParcel items := by
  simp [calculateOrderTotals, foldl_add_eq, sum_if_parcel]

lemma calculateOrderTotals_total (items : List OrderItem) (sc : ℚ) :
    (calculateOrderTotals items sc).2.2 =
      sumSubtotal items + sumParcel items + sumSubtotal items * sc / 100 := by
  simp [calculateOrderTotals, foldl_add_eq, sum_if_parcel, sumSubtotal]

lemma storedTotalsMatch_mk (o : Order) (items : List OrderItem) :
    storedTotalsMatch
      { o with
          items := items
          subtotal := (calculateOrderTotals items o.serviceCharge).1
          parcelCharges := (calculateOrderTotals items o.serviceCharge).2.1
          total := (calculateOrderTotals items o.serviceCharge).2.2 } := by
  refine ⟨?_, ?_, ?_⟩ <;>
    simp [storedTotalsMatch, calculateOrderTotals_fst, calculateOrderTotals_parcel,
      calculateOrderTotals_total]

lemma storedTotalsMatch_mk_sc (o : Order) (items : List OrderItem) (sc : ℚ) :
    storedTotalsMatch
      { o with
          items := items
          serviceCharge := sc
          subtotal := (calculateOrderTotals items sc).1
          parcelCharges := (calculateOrderTotals items sc).2.1
          total := (calculateOrderTotals items sc).2.2 } := by
  refine ⟨?_, ?_, ?_⟩ <;>
    simp [storedTotalsMatch, calculateOrderTotals_fst, calculateOrderTotals_parcel,
      calculateOrderTotals_total]

/-- Sample line: Idly, quantity 2 at price 20, parcel with charge 5 (spec §8). -/
def idly : OrderItem :=
  { id := "m1", name := "Idly", price := 20, category := "Tiffin", description := none,
    available := true, quantity := 2, isParcel := true, parcelCharge := 5 }

/-- Sample line: price 30, quantity 1, no parcel. -/
def plainDosa : OrderItem :=
  { id := "m2", name := "Dosa", price := 30, category := "Tiffin", description := none,
    available := true, quantity := 1, isParcel := false, parcelCharge := 0 }

/-- An empty active order for table 1. -/
def baseOrder : Order :=
  { id := "o1", tableNumber := 1, items := [], serviceCharge := 0, parcelCharges := 0,
    subtotal := 0, total := 0, timestamp := 0, status := .active, kotPrinted := false,
    customerBillPrinted := false, billNumber := none }

/-- Concrete order falsifying the rounded-total formula: one line at price 30,
service charge 5 percent. -/
def c1CexOrder : Order :=
  updateServiceCharge { baseOrder with items := [plainDosa] } 5

/-- C1 (amended): after any totals-recomputing operation the stored subtotal,
parcelCharges and total equal the spec-level sums, with the service-charge
amount `subtotal * serviceCharge / 100` added exactly - it is not rounded. -/
theorem C1_totals_recomputed (o : Order) (h : o.items ≠ []) (m : MenuItem)
    (itemId : String) (q : ℕ) (charge sc : ℚ) :
    storedTotalsMatch (addItemToOrder o m) ∧
    storedTotalsMatch (updateItemQuantityOrder o itemId q) ∧
    storedTotalsMatch (updateItemParcelCharge o itemId charge) ∧
    storedTotalsMatch (updateServiceCharge o sc) := by
  refine ⟨storedTotalsMatch_mk o _, storedTotalsMatch_mk o _, storedTotalsMatch_mk o _,
    storedTotalsMatch_mk_sc o _ sc⟩

/-- Witness for C1 at a concrete non-empty order. -/
theorem C1_totals_recomputed_witness :
    storedTotalsMatch (updateServiceCharge { baseOrder with items := [idly] } 10) := by
  have h : ({ baseOrder with items := [idly] } : Order).items ≠ [] := by
    simp [baseOrder]
  exact (C1_totals_recomputed { baseOrder with items := [idly] } h
    ⟨"m9", "Vada", 12, "Tiffin", none, true⟩ "m1" 3 7 10).2.2.2

/-- C1 counterexample: the claim as stated rounds the service-charge amount,
but the code stores it unrounded: this order stores total 31.5 while the
rounded formula yields 32. -/
lemma jsRound_onePointFive : jsRound (30 * 5 / 100 : ℚ) = 2 := by
  have h : (30 * 5 / 100 : ℚ) + 1/2 = 2 := by norm_num
  rw [jsRound, h]
  simp [Rat.num_ofNat, Rat.den_ofNat]

theorem C1_counterexample :
    ¬ (c1CexOrder.total = sumSubtotal c1CexOrder.items + sumParcel c1CexOrder.items +
        (jsRound (sumSubtotal c1CexOrder.items * c1CexOrder.serviceCharge / 100) : ℚ)) := by
  have hs : sumSubtotal c1CexOrder.items = 30 := by
    norm_num [c1CexOrder, updateServiceCharge, calculateOrderTotals, baseOrder, plainDosa,
      sumSubtotal]
  have hp : sumParcel c1CexOrder.items = 0 := by
    norm_num [c1CexOrder, updateServiceCharge, calculateOrderTotals, baseOrder, plainDosa,
      sumParcel]
  have hsc : c1CexOrder.serviceCharge = 5 := rfl
  have ht : c1CexOrder.total = 63/2 := by
    norm_num [c1CexOrder, updateServiceCharge, calculateOrderTotals, baseOrder, plainDosa]
  rw [hs, hp, hsc, ht, jsRound_onePointFive]
  norm_num

/-- C4: toggleItemParcel flips the matching item's isParcel, sets its
parcelCharge to 5 when enabling and 0 when disabling, leaves every other item
untouched, and leaves the stored subtotal, parcelCharges, total and
serviceCharge fields of the order unchanged (no totals recomputation). -/
theorem C4_toggleItemParcel_frame (o : Order) (itemId : String) :
    (toggleItemParcel o itemId).subtotal = o.subtotal ∧
    (toggleItemParcel o itemId).parcelCharges = o.parcelCharges ∧
    (toggleItemParcel o itemId).total = o.total ∧
    (toggleItemParcel o itemId).serviceCharge = o.serviceCharge ∧
    ∀ i : ℕ, (toggleItemParcel o itemId).items[i]? =
      (o.items[i]?).map (fun it =>
        if it.id = itemId then
          { it with isParcel := !it.isParcel, parcelCharge := if it.isParcel then 0 else 5 }
        else it) := by
  refine ⟨rfl, rfl, rfl, rfl, ?_⟩
  intro i
  simp only [toggleItemParcel, List.getElem?_map]
  cases h : o.items[i]? with
  | none => rfl
  | some it =>
    by_cases hid : it.id = itemId
    · cases hpi : it.isParcel <;> simp [hid, hpi]
    · simp [hid]

/-- C5: toggling a parcel line off and then on resets its parcelCharge to the
default 5, discarding any previous custom value. -/
theorem C5_double_toggle_resets_default (o : Order) (itemId : String) (i : ℕ)
    (it : OrderItem) (hget : o.items[i]? = some it) (hid : it.id = itemId)
    (hp : it.isParcel = true) :
    ((toggleItemParcel (toggleItemParcel o itemId) itemId).items[i]?).map
      (fun x => (x.isParcel, x.parcelCharge)) = some (true, 5) := by
  simp only [toggleItemParcel, List.getElem?_map, hget]
  simp [hid, hp]

/-- Witness for C5: an item with custom parcelCharge 12 comes back at 5. -/
theorem C5_double_toggle_resets_default_witness :
    let o : Order := { baseOrder with items := [{ idly with parcelCharge := 12 }] }
    ((toggleItemParcel (toggleItemParcel o "m1") "m1").items[0]?).map
      (fun x => (x.isParcel, x.parcelCharge)) = some (true, 5) :=
  C5_double_toggle_resets_default
    { baseOrder with items := [{ idly with parcelCharge := 12 }] } "m1" 0
    { idly with parcelCharge := 12 } rfl rfl rfl

/-- C6: the concrete order Idly x2 at 20, parcel charge 5, service charge 10
percent yields subtotal 40, parcelCharges 5, service-charge amount 4, total 49. -/
theorem C6_concrete_totals :
    (calculateOrderTotals [idly] 10).1 = 40 ∧
    (calculateOrderTotals [idly] 10).2.1 = 5 ∧
    serviceChargeAmount [idly] 10 = 4 ∧
    (calculateOrderTotals [idly] 10).2.2 = 49 := by
  refine ⟨?_, ?_, ?_, ?_⟩ <;>
    norm_num [calculateOrderTotals, serviceChargeAmount, idly]

/-- usePOSData.ts getAmountInWords: the `ones` array (lines 635-637). -/
def onesList : List String :=
  ["", "One", "Two", "Three", "Four", "Five", "Six", "Seven", "Eight", "Nine", "Ten",
   "Eleven", "Twelve", "Thirteen", "Fourteen", "Fifteen", "Sixteen", "Seventeen",
   "Eighteen", "Nineteen"]

/-- usePOSData.ts getAmountInWords: the `tens` array (line 638). -/
def tensList : List String :=
  ["", "", "Twenty", "Thirty", "Forty", "Fifty", "Sixty", "Seventy", "Eighty", "Ninety"]

/-- usePOSData.ts getAmountInWords (lines 634-663).  Indexing `ones[amount]` is
embedded as `List.getD _ ""`; every index reached is in range. -/
def getAmountInWords (amount : ℕ) : String :=
  if amount = 0 then "Zero Rupees only"
  else if amount < 20 then onesList.getD amount "" ++ " Rupees only"
  else if amount < 100 then
    let ten := amount / 10
    let one := amount % 10
    tensList.getD ten "" ++ (if one > 0 then " " ++ onesList.getD one "" else "") ++
      " Rupees only"
  else if amount < 1000 then
    let hundred := amount / 100
    let remainder := amount % 100
    let result := onesList.getD hundred "" ++ " Hundred"
    let result :=
      if remainder > 0 then
        if remainder < 20 then result ++ " " ++ onesList.getD remainder ""
        else
          let ten := remainder / 10
          let one := remainder % 10
          result ++ " " ++ tensList.getD ten "" ++
            (if one > 0 then " " ++ onesList.getD one "" else "")
      else result
    result ++ " Rupees only"
  else "Amount in words"

/-- Spec-side rendering, below 100: the standard ones/teens/tens English
numbering the spec appeals to. -/
def standardEnglishUnder100 (n : ℕ) : String :=
  if n < 20 then onesList.getD n ""
  else tensList.getD (n / 10) "" ++ (if n % 10 = 0 then "" else " " ++ onesList.getD (n % 10) "")

/-- Spec-side rendering, below 1000: hundreds part followed by the under-100
rendering of the remainder. -/
def standardEnglishUnder1000 (n : ℕ) : String :=
  if n = 0 then "Zero"
  else if n < 100 then standardEnglishUnder100 n
  else onesList.getD (n / 100) "" ++ " Hundred" ++
    (if n % 100 = 0 then "" else " " ++ standardEnglishUnder100 (n % 100))

set_option maxRecDepth 10000 in
/-- C7: on 0..999 the function returns the standard English ones/teens/tens
rendering followed by "Rupees only" (in particular 49 and 100 render as the
spec states), and on every input of 1000 or more it returns the fixed
placeholder "Amount in words". -/
theorem C7_getAmountInWords_spec :
    (∀ n : ℕ, n < 1000 → getAmountInWords n = standardEnglishUnder1000 n ++ " Rupees only") ∧
    getAmountInWords 49 = "Forty Nine Rupees only" ∧
    getAmountInWords 100 = "One Hundred Rupees only" ∧
    ∀ n : ℕ, 1000 ≤ n → getAmountInWords n = "Amount in words" := by
  refine ⟨by decide, by decide, by decide, ?_⟩
  intro n h
  have h0 : ¬ n = 0 := by omega
  have h1 : ¬ n < 20 := by omega
  have h2 : ¬ n < 100 := by omega
  have h3 : ¬ n < 1000 := by omega
  simp [getAmountInWords, h0, h1, h2, h3]

/-- Witness for C7, discharging the bounded and unbounded hypotheses at 250
and 4925. -/
theorem C7_getAmountInWords_spec_witness :
    getAmountInWords 250 = "Two Hundred Fifty Rupees only" ∧
    getAmountInWords 4925 = "Amount in words" := by
  refine ⟨?_, C7_getAmountInWords_spec.2.2.2 4925 (by norm_num)⟩
  have h := C7_getAmountInWords_spec.1 250 (by norm_num)
  rw [h]
  decide

/-- The two localStorage slots the bill service uses: billDate and billCounter
(billNumberService.ts lines 5-6).  The counter slot holds the parsed integer;
an absent slot parses as 0 via the source's `parseInt(... || choose 0)`. -/
structure BillStore where
  billDate : Option String
  billCounter : ℕ
deriving DecidableEq

/-- billNumberService.ts getNextBillNumberFromLocalStorage (lines 98-113):
reset to 1 whenever the stored date differs from today, else increment;
both the date and the new counter are written back. -/
def getNextBillNumberFromLocalStorage (today : String) (st : BillStore) : ℕ × BillStore :=
  if st.billDate ≠ some today then
    (1, { billDate := some today, billCounter := 1 })
  else
    (st.billCounter + 1, { st with billCounter := st.billCounter + 1 })

/-- JavaScript `s.padStart(3, c)` with c the zero digit. -/
def padStart3 (s : String) : String :=
  if s.length < 3 then String.mk (List.replicate (3 - s.length) '0') ++ s else s

/-- billNumberService.ts formatBillNumber (lines 158-160):
`billNumber.toString().padStart(3, zero)`. -/
def formatBillNumber (billNumber : ℕ) : String := padStart3 (Nat.repr billNumber)

/-- billNumberService.ts getSimpleBillNumber (lines 35-39): next local counter
value, zero-padded to width 3. -/
def getSimpleBillNumber (today : String) (st : BillStore) : String × BillStore :=
  let r := getNextBillNumberFromLocalStorage today st
  (formatBillNumber r.1, r.2)

/-- C2: the first call after the stored date differs from today yields "001";
any call leaves the store so that the next call on the same date returns a
number exactly one greater; the formatted string is the decimal numeral
left-padded with zeros to width 3 (length is the maximum of 3 and the numeral
width, the numeral is kept in full as a suffix, and a numeral of 3 or more
digits - in particular any value of 1000 or more - is returned unpadded and
untruncated). -/
theorem C2_bill_number_sequence (today : String) (st : BillStore) :
    (st.billDate ≠ some today →
      getSimpleBillNumber today st =
        ("001", { billDate := some today, billCounter := 1 })) ∧
    (∀ (st1 : BillStore) (n : ℕ) (st2 : BillStore),
      getNextBillNumberFromLocalStorage today st1 = (n, st2) →
      (getNextBillNumberFromLocalStorage today st2).1 = n + 1) ∧
    (∀ n : ℕ, (formatBillNumber n).length = max 3 (Nat.repr n).length ∧
      (∃ pad : List Char, formatBillNumber n = String.mk pad ++ Nat.repr n ∧
        ∀ c ∈ pad, c = '0') ∧
      (3 ≤ (Nat.repr n).length → formatBillNumber n = Nat.repr n)) := by
  refine ⟨?_, ?_, ?_⟩
  · intro h
    simp only [getSimpleBillNumber, getNextBillNumberFromLocalStorage, if_pos h]
    rw [show formatBillNumber 1 = "001" by decide]
  · intro st1 n st2 h
    by_cases hd : st1.billDate ≠ some today
    · simp only [getNextBillNumberFromLocalStorage, if_pos hd, Prod.mk.injEq] at h
      obtain ⟨hn, hst⟩ := h
      subst hst
      simp [getNextBillNumberFromLocalStorage, hn.symm]
    · simp only [getNextBillNumberFromLocalStorage, if_neg hd, Prod.mk.injEq] at h
      obtain ⟨hn, hst⟩ := h
      subst hst
      push_neg at hd
      simp [getNextBillNumberFromLocalStorage, hd, hn.symm]
  · intro n
    refine ⟨?_, ?_, ?_⟩
    · unfold formatBillNumber padStart3
      by_cases h : (Nat.repr n).length < 3
      · rw [if_pos h]
        simp [String.length_append]
        omega
      · rw [if_neg h]
        omega
    · unfold formatBillNumber padStart3
      by_cases h : (Nat.repr n).length < 3
      · exact ⟨List.replicate (3 - (Nat.repr n).length) '0', by rw [if_pos h],
          fun c hc => List.eq_of_mem_replicate hc⟩
      · refine ⟨[], ?_, by simp⟩
        rw [if_neg h]
        rfl
    · intro h
      unfold formatBillNumber padStart3
      rw [if_neg (by omega)]

/-- Witness for C2 at a concrete store: the stored date is stale, so the call
resets to "001"; a repeat call on the same date yields counter 2; 1000 keeps
its four digits. -/
theorem C2_bill_number_sequence_witness :
    getSimpleBillNumber "2025-10-11" { billDate := some "2025-10-10", billCounter := 7 } =
      ("001", { billDate := some "2025-10-11", billCounter := 1 }) ∧
    (getNextBillNumberFromLocalStorage "2025-10-11"
      { billDate := some "2025-10-11", billCounter := 1 }).1 = 2 ∧
    formatBillNumber 1000 = Nat.repr 1000 := by
  refine ⟨(C2_bill_number_sequence "2025-10-11"
      { billDate := some "2025-10-10", billCounter := 7 }).1 (by decide), ?_, ?_⟩
  · exact (C2_bill_number_sequence "2025-10-11"
      { billDate := some "2025-10-10", billCounter := 7 }).2.1
      { billDate := some "2025-10-10", billCounter := 7 } 1
      { billDate := some "2025-10-11", billCounter := 1 } (by decide)
  · exact ((C2_bill_number_sequence "2025-10-11"
      { billDate := some "2025-10-10", billCounter := 7 }).2.2 1000).2.2 (by decide)

/-- The useEffect on [currentOrder] (usePOSData.ts lines 180-205): after any
commit that replaces the current order, the matching table becomes available
when the order has no items and occupied (holding the order) otherwise. -/
def updateTableStatusEffect (tables : List Table) : Option Order → List Table
  | none => tables
  | some co => tables.map (fun t =>
      if t.number == co.tableNumber then
        if co.items.length == 0 then
          { t with status := TableStatus.available, currentOrder := none }
        else
          { t with status := TableStatus.occupied, currentOrder := some co }
      else t)

/-- The findIndex / map-by-index / append pattern used throughout usePOSData.ts:
replace the first order with the same id, else append at the end. -/
def upsertOrder : List Order → Order → List Order
  | [], u => [u]
  | o :: rest, u => if o.id == u.id then u :: rest else o :: upsertOrder rest u

/-- usePOSData.ts updateItemQuantity (lines 294-322) as a state transition:
rebuild the current order, drop it from the orders list when it became empty,
then let the [currentOrder] effect rederive the table status. -/
def updateItemQuantity (s : POSState) (itemId : String) (quantity : ℕ) : POSState :=
  match s.currentOrder with
  | none => s
  | some co =>
    let updatedOrder := updateItemQuantityOrder co itemId quantity
    let orders1 :=
      if updatedOrder.items.length == 0 then s.orders.filter (fun o => o.id != co.id)
      else s.orders
    { s with currentOrder := some updatedOrder, orders := orders1,
             tables := updateTableStatusEffect s.tables (some updatedOrder) }

/-- usePOSData.ts saveOrder (lines 383-410): no-op without a current order or
items; otherwise upsert into the orders list and mark the table occupied.
The current order is unchanged, so the [currentOrder] effect does not rerun. -/
def saveOrder (s : POSState) : POSState :=
  match s.currentOrder with
  | none => s
  | some co =>
    if co.items.length == 0 then s
    else
      { s with orders := upsertOrder s.orders co,
               tables := s.tables.map (fun t =>
                 if t.number == co.tableNumber then
                   { t with status := TableStatus.occupied, currentOrder := some co }
                 else t) }

/-- JavaScript slice(-4) on a string: the last four characters. -/
def jsSliceLast4 (s : String) : String := s.drop (s.length - 4)

/-- usePOSData.ts completeOrder (lines 412-501).  `billNumber` is the value the
bill service returned (remote or local fallback - completeOrder always obtains
one); `freshId` and `now` stand for Date.now().  The remote write of the
completed order is external and cannot fail the operation (safeWrite falls
back to localStorage).  The [currentOrder] effect runs after the commit with
the fresh empty order, so the table ends available. -/
def completeOrder (s : POSState) (billNumber : String) (freshId : String) (now : ℕ) :
    POSState :=
  match s.currentOrder with
  | none => s
  | some co =>
    let completedOrder := { co with status := OrderStatus.completed,
                                    billNumber := some billNumber }
    let freshOrder : Order :=
      { id := freshId, tableNumber := co.tableNumber, items := [], subtotal := 0, total := 0,
        serviceCharge := 0, parcelCharges := 0, timestamp := now,
        status := OrderStatus.active, kotPrinted := false, customerBillPrinted := false,
        billNumber := none }
    let tables1 := s.tables.map (fun t =>
      if t.number == co.tableNumber then
        { t with status := TableStatus.occupied, currentOrder := some freshOrder }
      else t)
    { s with orders := upsertOrder s.orders completedOrder,
             currentOrder := some freshOrder,
             successMessage := some ("Order #" ++ jsSliceLast4 completedOrder.id ++
               " completed successfully! ✅"),
             tables := updateTableStatusEffect tables1 (some freshOrder) }

inductive PrintType where
  | kot
  | customer
  | both
deriving DecidableEq

/-- One performPrint invocation: scheduled `delay` milliseconds after the
handler ran, rendering `order` as a KOT or a customer bill. -/
structure RenderCall where
  delay : ℕ
  ptype : PrintType
  order : Order
deriving DecidableEq

/-- JS truthiness of the optional billNumber string (an empty string is falsy). -/
def billTruthy : Option String → Bool
  | none => false
  | some b => b != ""

/-- usePOSData.ts handlePrint lines 866-878: among the completed orders for
this table that carry a bill number, the one with the latest timestamp
(first occurrence wins on ties, matching the stable descending sort). -/
def latestCompletedForTable (orders : List Order) (tableNumber : ℕ) : Option Order :=
  let completedOrders := orders.filter (fun o =>
    o.tableNumber == tableNumber && decide (o.status = OrderStatus.completed) &&
      billTruthy o.billNumber)
  completedOrders.foldl (fun acc o =>
    match acc with
    | none => some o
    | some m => if m.timestamp < o.timestamp then some o else acc) none

/-- usePOSData.ts handlePrint lines 819-850: when the current order has items
but no (truthy) bill number, attach the freshly generated one (`newBill` is
the number the bill service returns). -/
def assignBill (co0 : Order) (newBill : String) : Order :=
  if co0.items.length != 0 && !billTruthy co0.billNumber then
    { co0 with billNumber := some newBill }
  else co0

/-- usePOSData.ts handlePrint lines 852-888: an empty current order is
substituted by the latest completed order for its table, when one exists. -/
def printTarget (orders : List Order) (co : Order) : Order :=
  if co.items.length == 0 then (latestCompletedForTable orders co.tableNumber).getD co
  else co

/-- usePOSData.ts handlePrint (lines 816-961), as the committed state plus the
list of performPrint calls with their scheduling delays (0 now, 3000 for the
delayed customer copy in the both case).  The source reads the orders and
tables state captured at handler entry (stale closure), so the committed state
is computed from the entry state with the last setState call winning; the
[currentOrder] effect then rederives the table status whenever the current
order was replaced.  Printed-flag updates happen in the handler itself, before
any delayed render runs. -/
def handlePrint (s : POSState) (t : PrintType) (newBill : String) :
    POSState × List RenderCall :=
  match s.currentOrder with
  | none => (s, [])
  | some co0 =>
    let co := assignBill co0 newBill
    let orderToPrint := printTarget s.orders co
    match t with
    | PrintType.both =>
      let renders := [⟨0, PrintType.kot, orderToPrint⟩, ⟨3000, PrintType.customer, orderToPrint⟩]
      if orderToPrint.id == co.id then
        let u := { co with kotPrinted := true, customerBillPrinted := true }
        let tables1 := s.tables.map (fun tb =>
          if tb.number == u.tableNumber then
            { tb with status := TableStatus.occupied, currentOrder := some u }
          else tb)
        ({ s with currentOrder := some u, orders := upsertOrder s.orders u,
                  tables := updateTableStatusEffect tables1 (some u) }, renders)
      else (s, renders)
    | _ =>
      let renders := [⟨0, t, orderToPrint⟩]
      if orderToPrint.id == co.id then
        let u := { co with
          kotPrinted := if t = PrintType.kot then true else co.kotPrinted,
          customerBillPrinted := if t = PrintType.customer then true else co.customerBillPrinted }
        let tables1 := s.tables.map (fun tb =>
          if tb.number == u.tableNumber then
            { tb with status := TableStatus.occupied, currentOrder := some u }
          else tb)
        ({ s with currentOrder := some u, orders := upsertOrder s.orders u,
                  tables := updateTableStatusEffect tables1 (some u) }, renders)
      else (s, renders)

/-- Omit MenuItem id: the argument of addMenuItem. -/
structure MenuItemInput where
  name : String
  price : ℚ
  category : String
  description : Option String
  available : Bool
deriving DecidableEq

/-- JS truthiness of the errorMessage closure variable read by addMenuItem's
catch block (null and the empty string are falsy). -/
def jsTruthy : Option String → Bool
  | none => false
  | some m => m != ""

/-- usePOSData.ts addMenuItem (lines 982-1042).  `newId` stands for
Date.now().toString().  Returns the committed state together with the record
handed to safeWrite (none when validation aborted before the write; safeWrite
itself cannot fail - supabase.ts falls back to localStorage - so on the happy
path the item is always appended).  The written record additionally carries
the constant restaurant_id tag.  On the validation-failure path the handler
issues setErrorMessage(null), then setErrorMessage with the price message,
then throws; the catch block (lines 1035-1037) tests the stale closure value
of errorMessage - the state as of handler entry, not the value just set - and
when that entry value is falsy issues a final setErrorMessage with the generic
message, which wins as the last write on that slot. -/
def addMenuItem (s : POSState) (item : MenuItemInput) (newId : String) :
    POSState × Option MenuItem :=
  let s0 := { s with errorMessage := none }
  if (100000000 : ℚ) ≤ item.price then
    let s1 := { s0 with
        errorMessage := some "Price too large! Maximum allowed: ₹99,999,999.99" }
    if jsTruthy s.errorMessage then (s1, none)
    else ({ s1 with errorMessage := some "Failed to add menu item. Please try again." }, none)
  else
    let newCategoryUpper := item.category.toUpper.trim
    let existingCategory := (s.menuItems.map (fun m => m.category)).find?
      (fun existing => existing.toUpper.trim == newCategoryUpper)
    let finalCategory := existingCategory.getD item.category.trim
    let newItem : MenuItem :=
      { id := newId, name := item.name,
        price := (jsRound (item.price * 100) : ℚ) / 100,
        category := finalCategory, description := item.description,
        available := item.available }
    let msg :=
      match existingCategory with
      | some ec =>
        if ec != "" && ec != item.category then
          "✅ \"" ++ newItem.name ++ "\" added to \"" ++ ec ++ "\" category successfully!"
        else
          "✅ \"" ++ newItem.name ++ "\" added to menu successfully!"
      | none => "✅ \"" ++ newItem.name ++ "\" added to menu successfully!"
    ({ s0 with menuItems := s.menuItems ++ [newItem], successMessage := some msg }, some newItem)

/-- A one-line order (Idly x2) on table 1. -/
def c8Order : Order := { baseOrder with items := [idly] }

/-- State whose current order is c8Order, saved in the orders list and on its
table. -/
def c8State : POSState :=
  { tables := [{ number := 1, status := TableStatus.occupied, currentOrder := some c8Order }],
    menuItems := [], orders := [c8Order], currentOrder := some c8Order,
    errorMessage := none, successMessage := none }

/-- State whose current order is empty (baseOrder). -/
def c10State : POSState :=
  { tables := [{ number := 1, status := TableStatus.occupied, currentOrder := some baseOrder }],
    menuItems := [], orders := [], currentOrder := some baseOrder,
    errorMessage := none, successMessage := none }

/-- A completed order for table 1 carrying bill number "001". -/
def completedB : Order :=
  { id := "B", tableNumber := 1, items := [idly], serviceCharge := 0, parcelCharges := 5,
    subtotal := 40, total := 45, timestamp := 5, status := OrderStatus.completed,
    kotPrinted := false, customerBillPrinted := false, billNumber := some "001" }

/-- State right after completing an order: the current order is a fresh empty
one while the completed order sits in the orders list. -/
def c3CexState : POSState :=
  { tables := [{ number := 1, status := TableStatus.occupied, currentOrder := none }],
    menuItems := [], orders := [completedB],
    currentOrder := some { baseOrder with id := "A" },
    errorMessage := none, successMessage := none }

/-- The empty hook state. -/
def posState0 : POSState :=
  { tables := [], menuItems := [], orders := [], currentOrder := none,
    errorMessage := none, successMessage := none }

/-- A menu-item request whose price exceeds the validation bound. -/
def bigPriceInput : MenuItemInput :=
  { name := "Gold Thali", price := 200000000, category := "Special", description := none,
    available := true }

/-- A menu-item request with an ordinary price. -/
def cheapInput : MenuItemInput :=
  { name := "Coffee", price := 50, category := "Beverages", description := none,
    available := true }

lemma mem_upsertOrder (u : Order) : ∀ l : List Order, u ∈ upsertOrder l u
  | [] => by simp [upsertOrder]
  | o :: rest => by
    by_cases hid : o.id == u.id <;> simp [upsertOrder, hid, mem_upsertOrder u rest]

/-- C8: with a current order, setting an item quantity to 0 removes its line
and recomputes the stored totals; when that emptied the order, the order is
also dropped from the historical list and the order's table becomes
available. -/
theorem C8_quantity_zero_removes (s : POSState) (co : Order) (itemId : String)
    (h : s.currentOrder = some co) :
    ∃ co1 : Order, (updateItemQuantity s itemId 0).currentOrder = some co1 ∧
      co1.items = co.items.filter (fun item => item.id != itemId) ∧
      storedTotalsMatch co1 ∧
      (co1.items = [] →
        (updateItemQuantity s itemId 0).orders = s.orders.filter (fun o => o.id != co.id) ∧
        ∀ tb ∈ (updateItemQuantity s itemId 0).tables, tb.number = co.tableNumber →
          tb.status = TableStatus.available ∧ tb.currentOrder = none) := by
  refine ⟨updateItemQuantityOrder co itemId 0, ?_, ?_, storedTotalsMatch_mk co _, ?_⟩
  · simp [updateItemQuantity, h]
  · simp [updateItemQuantityOrder]
  · intro hempty
    have hlen : (updateItemQuantityOrder co itemId 0).items.length == 0 := by
      simp [hempty]
    constructor
    · simp [updateItemQuantity, h, hlen]
    · intro tb htb hnum
      simp only [updateItemQuantity, h] at htb
      simp only [updateTableStatusEffect, hlen, List.mem_map] at htb
      obtain ⟨tb0, h0, rfl⟩ := htb
      have htn : (updateItemQuantityOrder co itemId 0).tableNumber = co.tableNumber := rfl
      by_cases hb : tb0.number = co.tableNumber
      · simp [htn, hb, hempty]
      · simp only [htn] at hnum ⊢
        by_cases hcond : (tb0.number == co.tableNumber) = true
        · simp [hempty, hcond]
        · rw [if_neg hcond] at hnum
          exact absurd hnum hb

/-- Witness for C8: removing the single Idly line from a one-line order on
table 1 empties the order, drops it from the orders list and frees table 1. -/
theorem C8_quantity_zero_removes_witness :
    ∃ co1 : Order, (updateItemQuantity c8State "m1" 0).currentOrder = some co1 ∧
      co1.items = c8Order.items.filter (fun item => item.id != "m1") ∧
      storedTotalsMatch co1 ∧
      (co1.items = [] →
        (updateItemQuantity c8State "m1" 0).orders =
          c8State.orders.filter (fun o => o.id != c8Order.id) ∧
        ∀ tb ∈ (updateItemQuantity c8State "m1" 0).tables, tb.number = c8Order.tableNumber →
          tb.status = TableStatus.available ∧ tb.currentOrder = none) :=
  C8_quantity_zero_removes c8State c8Order "m1" rfl

/-- C10: completeOrder needs only a current order, not a non-empty one: an
empty current order is still recorded as completed with the issued bill number
attached, and the current order is replaced by a fresh empty active order for
the same table - while saveOrder on the same state is a no-op. -/
theorem C10_completeOrder_empty_proceeds (s : POSState) (co : Order)
    (bn freshId : String) (now : ℕ) (h : s.currentOrder = some co)
    (hempty : co.items = []) :
    ({ co with status := OrderStatus.completed, billNumber := some bn } ∈
      (completeOrder s bn freshId now).orders) ∧
    (completeOrder s bn freshId now).currentOrder = some
      { id := freshId, tableNumber := co.tableNumber, items := [], subtotal := 0, total := 0,
        serviceCharge := 0, parcelCharges := 0, timestamp := now,
        status := OrderStatus.active, kotPrinted := false, customerBillPrinted := false,
        billNumber := none } ∧
    saveOrder s = s := by
  refine ⟨?_, ?_, ?_⟩
  · simp only [completeOrder, h]
    exact mem_upsertOrder _ _
  · simp [completeOrder, h]
  · simp [saveOrder, h, hempty]

/-- Witness for C10 at a concrete state whose current order is empty. -/
theorem C10_completeOrder_empty_proceeds_witness :
    ({ baseOrder with status := OrderStatus.completed, billNumber := some "001" } ∈
      (completeOrder c10State "001" "f1" 99).orders) ∧
    (completeOrder c10State "001" "f1" 99).currentOrder = some
      { id := "f1", tableNumber := baseOrder.tableNumber, items := [], subtotal := 0,
        total := 0, serviceCharge := 0, parcelCharges := 0, timestamp := 99,
        status := OrderStatus.active, kotPrinted := false, customerBillPrinted := false,
        billNumber := none } ∧
    saveOrder c10State = c10State :=
  C10_completeOrder_empty_proceeds c10State baseOrder "001" "f1" 99 rfl rfl

/-- C3 (amended): handlePrint both always issues exactly two render calls for
the same order, the KOT at delay 0 strictly before the customer bill scheduled
at the fixed 3000 ms delay; and whenever the current order has items (so the
printed order is the current order itself) it sets both kotPrinted and
customerBillPrinted to true in the same handler run, before the delayed second
render executes. -/
theorem C3_handlePrint_both (s : POSState) (co : Order) (newBill : String)
    (h : s.currentOrder = some co) :
    (∃ p : Order, (handlePrint s PrintType.both newBill).2 =
      [{ delay := 0, ptype := PrintType.kot, order := p },
       { delay := 3000, ptype := PrintType.customer, order := p }]) ∧
    (co.items ≠ [] →
      ∃ u : Order, (handlePrint s PrintType.both newBill).1.currentOrder = some u ∧
        u.kotPrinted = true ∧ u.customerBillPrinted = true) := by
  constructor
  · refine ⟨printTarget s.orders (assignBill co newBill), ?_⟩
    simp only [handlePrint, h]
    by_cases hid :
        ((printTarget s.orders (assignBill co newBill)).id == (assignBill co newBill).id) = true <;>
      simp [hid]
  · intro hne
    have hitems : (assignBill co newBill).items = co.items := by
      unfold assignBill
      split <;> rfl
    have htarget : printTarget s.orders (assignBill co newBill) = assignBill co newBill := by
      unfold printTarget
      rw [if_neg]
      simp [hitems, hne]
    refine ⟨{ assignBill co newBill with kotPrinted := true, customerBillPrinted := true },
      ?_, rfl, rfl⟩
    simp only [handlePrint, h, htarget]
    rw [if_pos (by simp)]

/-- Witness for C3 at a concrete one-line current order. -/
theorem C3_handlePrint_both_witness :
    (∃ p : Order, (handlePrint c8State PrintType.both "007").2 =
      [{ delay := 0, ptype := PrintType.kot, order := p },
       { delay := 3000, ptype := PrintType.customer, order := p }]) ∧
    (c8Order.items ≠ [] →
      ∃ u : Order, (handlePrint c8State PrintType.both "007").1.currentOrder = some u ∧
        u.kotPrinted = true ∧ u.customerBillPrinted = true) :=
  C3_handlePrint_both c8State c8Order "007" rfl

/-- C3 counterexample: when the current order is empty and a completed order
with a bill number exists for the table, handlePrint both still issues the two
renders (of the substituted order) but does not set the current order's
printed flags, contradicting the claim's unconditional flag update. -/
theorem C3_counterexample :
    ((handlePrint c3CexState PrintType.both "002").1.currentOrder.map
      (fun o => o.kotPrinted || o.customerBillPrinted)) = some false ∧
    ((handlePrint c3CexState PrintType.both "002").2.map
      (fun r => (r.delay, r.ptype, r.order.id))) =
      [(0, PrintType.kot, "B"), (3000, PrintType.customer, "B")] := by
  constructor <;> rfl

/-- C9: addMenuItem rejects a price at or above the 100000000 bound - the add
aborts with the menu list untouched and nothing handed to storage, and a
user-visible error message is always committed (the price message when the
handler was entered with a truthy errorMessage, else the catch block's generic
message, since its stale-closure test reads the entry state) - while any price
below the bound passes validation: no error message remains and the new item
is appended (and written). -/
theorem C9_addMenuItem_price_bound (s : POSState) (item : MenuItemInput) (newId : String) :
    ((100000000 : ℚ) ≤ item.price →
      (addMenuItem s item newId).1.menuItems = s.menuItems ∧
      (addMenuItem s item newId).2 = none ∧
      (addMenuItem s item newId).1.errorMessage =
        some (if jsTruthy s.errorMessage then
                "Price too large! Maximum allowed: ₹99,999,999.99"
              else "Failed to add menu item. Please try again.") ∧
      (addMenuItem s item newId).1.errorMessage ≠ none) ∧
    (item.price < 100000000 →
      (addMenuItem s item newId).1.errorMessage = none ∧
      ∃ newItem : MenuItem,
        (addMenuItem s item newId).1.menuItems = s.menuItems ++ [newItem] ∧
        (addMenuItem s item newId).2 = some newItem ∧ newItem.name = item.name) := by
  constructor
  · intro hge
    by_cases htr : jsTruthy s.errorMessage <;>
      simp [addMenuItem, hge, htr]
  · intro hlt
    have hnot : ¬ (100000000 : ℚ) ≤ item.price := not_le.mpr hlt
    refine ⟨by simp [addMenuItem, hnot],
      ⟨{ id := newId, name := item.name,
         price := (jsRound (item.price * 100) : ℚ) / 100,
         category := (((s.menuItems.map (fun m => m.category)).find?
           (fun existing => existing.toUpper.trim == item.category.toUpper.trim)).getD
             item.category.trim),
         description := item.description, available := item.available }, ?_, ?_, rfl⟩⟩
    · simp [addMenuItem, hnot]
    · simp [addMenuItem, hnot]

/-- Witness for C9: a price of 200000000 is rejected with the menu untouched
and an error message committed (the generic catch-block message, since the
state was entered with errorMessage null); a price of 50 is appended with no
validation error. -/
theorem C9_addMenuItem_price_bound_witness :
    ((addMenuItem posState0 bigPriceInput "id1").1.menuItems = posState0.menuItems ∧
      (addMenuItem posState0 bigPriceInput "id1").2 = none ∧
      (addMenuItem posState0 bigPriceInput "id1").1.errorMessage =
        some (if jsTruthy posState0.errorMessage then
                "Price too large! Maximum allowed: ₹99,999,999.99"
              else "Failed to add menu item. Please try again.") ∧
      (addMenuItem posState0 bigPriceInput "id1").1.errorMessage ≠ none) ∧
    ((addMenuItem posState0 cheapInput "id2").1.errorMessage = none ∧
      ∃ newItem : MenuItem,
        (addMenuItem posState0 cheapInput "id2").1.menuItems =
          posState0.menuItems ++ [newItem] ∧
        (addMenuItem posState0 cheapInput "id2").2 = some newItem ∧
        newItem.name = cheapInput.name) :=
  ⟨(C9_addMenuItem_price_bound posState0 bigPriceInput "id1").1 (by norm_num [bigPriceInput]),
   (C9_addMenuItem_price_bound posState0 cheapInput "id2").2 (by norm_num [cheapInput])⟩

end UdupiPOS
